import Mathlib

/-!
Verification of the response-normalization, call-orchestration, authentication
and URL-construction logic of the Cloudflare v4 API client
(`src/CloudFlare/cloudflare.py`), as a shallow embedding in Lean.

JSON documents are modelled by the inductive type `JValue`; `jsonParse` models
`json.loads` on the JSON fragment this client exchanges (null, booleans,
integers, strings with the common escapes, arrays, objects); floats, exponents
and unicode escapes are not modelled because no statement here depends on them.
Python dictionaries are association lists preserving insertion order; the
Python operations `in`, `d[k]`, `d[k] = v` and sequence indexing are modelled
by `pyContains`, `pyGetItemS`, `pySetItemS` and `pyIndex`, which also reproduce
the `TypeError` / `KeyError` / `IndexError` behaviour on non-dict values.
-/

set_option maxRecDepth 4096

namespace CF

/-- Python brace characters, kept out of literals. -/
def lbrace : Char := Char.ofNat 123

def rbrace : Char := Char.ofNat 125

inductive JValue where
  | null : JValue
  | bool : Bool → JValue
  | num : Int → JValue
  | str : String → JValue
  | arr : List JValue → JValue
  | obj : List (String × JValue) → JValue

/-- Errors raised by the embedded code paths: `apiError` is
`CloudFlareAPIError(code, message)` (with the chain form for the third
argument), `internalError` is `CloudFlareInternalError`, `httpError` is the
`requests.HTTPError` produced by `response.raise_for_status()`, and the last
three are the corresponding uncaught Python runtime errors. -/
inductive CFErr where
  | apiError : JValue → JValue → CFErr
  | apiErrorChain : JValue → JValue → JValue → CFErr
  | internalError : String → CFErr
  | httpError : Nat → CFErr
  | typeError : CFErr
  | keyError : CFErr
  | indexError : CFErr

/-- Consume `pat` from the front of `cs`; `some rest` on success. -/
def takeAway : List Char → List Char → Option (List Char)
  | [], cs => some cs
  | _ :: _, [] => none
  | a :: as, c :: cs => if a = c then takeAway as cs else none

/-- Python `sub in s` substring test. -/
def hasSubList (sub : List Char) : List Char → Bool
  | [] => (takeAway sub []).isSome
  | c :: cs => (takeAway sub (c :: cs)).isSome || hasSubList sub cs

def strHasSub (s sub : String) : Bool := hasSubList sub.data s.data

def skipWs : List Char → List Char
  | [] => []
  | c :: cs => if c = ' ' ∨ c = '\n' ∨ c = '\t' ∨ c = '\r' then skipWs cs else c :: cs

def parseStrBody : List Char → List Char → Option (String × List Char)
  | [], _ => none
  | c :: rest, acc =>
    if c = '"' then some (String.mk acc.reverse, rest)
    else if c = '\\' then
      match rest with
      | [] => none
      | e :: rest2 =>
        if e = '"' then parseStrBody rest2 ('"' :: acc)
        else if e = '\\' then parseStrBody rest2 ('\\' :: acc)
        else if e = '/' then parseStrBody rest2 ('/' :: acc)
        else if e = 'n' then parseStrBody rest2 ('\n' :: acc)
        else if e = 't' then parseStrBody rest2 ('\t' :: acc)
        else if e = 'r' then parseStrBody rest2 ('\r' :: acc)
        else none
    else parseStrBody rest (c :: acc)

def takeDigits : List Char → List Char × List Char
  | [] => ([], [])
  | c :: cs =>
    if c.isDigit then
      let p := takeDigits cs
      (c :: p.1, p.2)
    else ([], c :: cs)

def digitsToNat : List Char → Nat → Nat
  | [], acc => acc
  | c :: cs, acc => digitsToNat cs (acc * 10 + (c.toNat - 48))

def parseNumLit : List Char → Option (JValue × List Char)
  | '-' :: cs =>
    match takeDigits cs with
    | ([], _) => none
    | (ds, r) => some (.num (-(Int.ofNat (digitsToNat ds 0))), r)
  | cs =>
    match takeDigits cs with
    | ([], _) => none
    | (ds, r) => some (.num (Int.ofNat (digitsToNat ds 0)), r)

mutual

def parseVal : Nat → List Char → Option (JValue × List Char)
  | 0, _ => none
  | Nat.succ fuel, cs =>
    match skipWs cs with
    | [] => none
    | c :: rest =>
      if c = 'n' then
        match takeAway ['u', 'l', 'l'] rest with
        | some r => some (.null, r)
        | none => none
      else if c = 't' then
        match takeAway ['r', 'u', 'e'] rest with
        | some r => some (.bool true, r)
        | none => none
      else if c = 'f' then
        match takeAway ['a', 'l', 's', 'e'] rest with
        | some r => some (.bool false, r)
        | none => none
      else if c = '"' then
        match parseStrBody rest [] with
        | some (s, r) => some (.str s, r)
        | none => none
      else if c = '[' then
        match skipWs rest with
        | [] => none
        | c2 :: r2 =>
          if c2 = ']' then some (.arr [], r2)
          else
            match parseArrItems fuel (c2 :: r2) with
            | some (xs, r) => some (.arr xs, r)
            | none => none
      else if c = lbrace then
        match skipWs rest with
        | [] => none
        | c2 :: r2 =>
          if c2 = rbrace then some (.obj [], r2)
          else
            match parseObjItems fuel (c2 :: r2) with
            | some (fs, r) => some (.obj fs, r)
            | none => none
      else parseNumLit (c :: rest)

def parseArrItems : Nat → List Char → Option (List JValue × List Char)
  | 0, _ => none
  | Nat.succ fuel, cs =>
    match parseVal fuel cs with
    | none => none
    | some (v, r) =>
      match skipWs r with
      | [] => none
      | c :: r2 =>
        if c = ',' then
          match parseArrItems fuel r2 with
          | some (xs, r3) => some (v :: xs, r3)
          | none => none
        else if c = ']' then some ([v], r2)
        else none

def parseObjItems : Nat → List Char → Option (List (String × JValue) × List Char)
  | 0, _ => none
  | Nat.succ fuel, cs =>
    match skipWs cs with
    | [] => none
    | c :: rest =>
      if c = '"' then
        match parseStrBody rest [] with
        | none => none
        | some (k, r) =>
          match skipWs r with
          | [] => none
          | c2 :: r2 =>
            if c2 = ':' then
              match parseVal fuel r2 with
              | none => none
              | some (v, r3) =>
                match skipWs r3 with
                | [] => none
                | c3 :: r4 =>
                  if c3 = ',' then
                    match parseObjItems fuel r4 with
                    | some (fs, r5) => some ((k, v) :: fs, r5)
                    | none => none
                  else if c3 = rbrace then some ([(k, v)], r4)
                  else none
            else none
      else none

end

/-- Model of `json.loads`: parse one document, demand the remainder is blank. -/
def jsonParse (s : String) : Option JValue :=
  match parseVal (s.length + 2) s.data with
  | some (v, r) => if (skipWs r).isEmpty then some v else none
  | none => none

/-- Model of Python `str.splitlines` for newline-separated data. -/
def pySplitLinesAux : List Char → List Char → List String
  | [], [] => []
  | [], acc => [String.mk acc.reverse]
  | c :: rest, acc =>
    if c = '\n' then String.mk acc.reverse :: pySplitLinesAux rest []
    else pySplitLinesAux rest (c :: acc)

def pySplitLines (s : String) : List String := pySplitLinesAux s.data []

/-- Association-list lookup for the ordered-dict model. -/
def jLookup : List (String × JValue) → String → Option JValue
  | [], _ => none
  | (k, v) :: rest, key => if k = key then some v else jLookup rest key

/-- Python `d[k] = v`: replace in place, else append (insertion order kept). -/
def jSet : List (String × JValue) → String → JValue → List (String × JValue)
  | [], key, v => [(key, v)]
  | (k, w) :: rest, key, v =>
    if k = key then (key, v) :: rest else (k, w) :: jSet rest key v

/-- Python `x is None` for a JSON-shaped value. -/
def JValue.isNull : JValue → Bool
  | .null => true
  | _ => false

/-- The string payload of a value, when it is a string. -/
def JValue.asStr : JValue → Option String
  | .str s => some s
  | _ => none

/-- Python `key in xs` on a list: equality against the string elements. -/
def listHasStr (xs : List JValue) (k : String) : Bool :=
  xs.any fun x => match x with | .str s => s = k | _ => false

/-- Python `key in x` on dicts, lists and strings; `TypeError` otherwise. -/
def pyContains : JValue → String → Except CFErr Bool
  | .obj fs, k => .ok (jLookup fs k).isSome
  | .arr xs, k => .ok (listHasStr xs k)
  | .str s, k => .ok (strHasSub s k)
  | _, _ => .error .typeError

/-- Python `x[key]` with a string key. -/
def pyGetItemS : JValue → String → Except CFErr JValue
  | .obj fs, k =>
    match jLookup fs k with
    | some v => .ok v
    | none => .error .keyError
  | _, _ => .error .typeError

/-- Python `x[key] = v` with a string key. -/
def pySetItemS : JValue → String → JValue → Except CFErr JValue
  | .obj fs, k, v => .ok (.obj (jSet fs k v))
  | _, _, _ => .error .typeError

/-- Python `x[i]` with an integer index (string keys in our dicts, so a dict
raises `KeyError`). -/
def pyIndex : JValue → Nat → Except CFErr JValue
  | .arr xs, i =>
    match xs.get? i with
    | some v => .ok v
    | none => .error .indexError
  | .str s, i =>
    match s.data.get? i with
    | some c => .ok (.str (String.mk [c]))
    | none => .error .indexError
  | .obj _, _ => .error .keyError
  | _, _ => .error .typeError

def natStrAux : Nat → Nat → List Char → List Char
  | 0, _, acc => acc
  | Nat.succ fuel, n, acc =>
    if n < 10 then Char.ofNat (48 + n) :: acc
    else natStrAux fuel (n / 10) (Char.ofNat (48 + n % 10) :: acc)

def natStr (n : Nat) : String := String.mk (natStrAux (n + 1) n [])

def intStr : Int → String
  | .ofNat n => natStr n
  | .negSucc n => "-" ++ natStr (n + 1)

mutual

/-- Python `repr` of a JSON-shaped value (str rendered with quotes). -/
def pyRepr : JValue → String
  | .null => "None"
  | .bool true => "True"
  | .bool false => "False"
  | .num n => intStr n
  | .str s => "'" ++ s ++ "'"
  | .arr xs => "[" ++ pyReprItems xs ++ "]"
  | .obj fs => "\x7b" ++ pyReprFields fs ++ "\x7d"

def pyReprItems : List JValue → String
  | [] => ""
  | x :: xs =>
    pyRepr x ++ (match xs with | [] => "" | _ :: _ => ", ") ++ pyReprItems xs

def pyReprFields : List (String × JValue) → String
  | [] => ""
  | (k, v) :: fs =>
    "'" ++ k ++ "': " ++ pyRepr v
      ++ (match fs with | [] => "" | _ :: _ => ", ") ++ pyReprFields fs

end

/-- Python `str()` of a JSON-shaped value. -/
def pyStr : JValue → String
  | .str s => s
  | v => pyRepr v

def joinGTList : List JValue → Except CFErr (List String)
  | [] => .ok []
  | .str s :: xs =>
    match joinGTList xs with
    | .ok ss => .ok (s :: ss)
    | .error e => .error e
  | _ :: _ => .error .typeError

def joinWith (sep : String) : List String → String
  | [] => ""
  | [s] => s
  | s :: t :: ss => s ++ sep ++ joinWith sep (t :: ss)

/-- Python `'>'.join(v)`: a list must hold strings; a string joins its
characters; anything else raises `TypeError`. -/
def pyJoinGT : JValue → Except CFErr String
  | .arr xs =>
    match joinGTList xs with
    | .ok ss => .ok (joinWith ">" ss)
    | .error e => .error e
  | .str s => .ok (joinWith ">" (s.data.map fun c => String.mk [c]))
  | _ => .error .typeError

/-- The status-classification step of `_call_network` (lines 250-269): a
response code in 500..599 is passed to `response.raise_for_status()`, which
for those codes always raises `requests.HTTPError`, before any normalization
of the body. -/
def call_network_classify (code : Nat) : Except CFErr Unit :=
  if 500 ≤ code ∧ code ≤ 599 then .error (.httpError code) else .ok ()

/-- The body-normalization part of `_raw` (lines 300-438), acting on the
content type (already lowercased and parameter-stripped by `_call_network`),
status code and decoded body.  The `application/octet-stream` arm follows the
bytes branch of the source (a `requests` body is `bytes`); the source's
numeric-body octet-stream arm is unreachable for the same reason and is not
modelled. -/
def raw_normalize (rtype : String) (code : Nat) (body : String) :
    Except CFErr JValue :=
  if rtype = "application/json" then
    match jsonParse body with
    | some (.obj fs) => .ok (.obj fs)
    | some v => .ok (.obj [("success", .bool true), ("result", v)])
    | none =>
      if body = "" then
        if code = 200 then
          .ok (.obj [("success", .bool true), ("result", .null)])
        else
          .ok (.obj [("success", .bool false), ("code", .num code),
                     ("result", .null)])
      else
        -- NDJSON: one JSON value per line; the whole loop is inside one
        -- try/except, so a single unparsable line fails the call
        match (pySplitLines body).mapM jsonParse with
        | some vs => .ok (.arr vs)
        | none =>
          .error (.apiError (.num 0)
            (.str "JSON parse failed - report to Cloudflare."))
  else if rtype = "application/octet-stream" then
    match jsonParse body with
    | some v =>
      let wrapNeeded :=
        match v with
        | .obj fs => (jLookup fs "success").isNone
        | _ => true
      if wrapNeeded then
        if code = 200 then .ok (.obj [("success", .bool true), ("result", v)])
        else
          .ok (.obj [("success", .bool false), ("code", .num code),
                     ("result", v)])
      else .ok v
    | none =>
      if code = 200 then
        .ok (.obj [("success", .bool true), ("result", .str body)])
      else
        .ok (.obj [("success", .bool false), ("code", .num code),
                   ("result", .str body)])
  else if rtype = "text/plain" then
    match jsonParse body with
    | some (.obj fs) => .ok (.obj fs)
    | some v => .ok (.obj [("success", .bool true), ("result", v)])
    | none =>
      if code = 200 then
        .ok (.obj [("success", .bool true), ("result", .str body)])
      else
        .ok (.obj [("success", .bool false), ("code", .num code),
                   ("result", .str body)])
  else
    -- text/javascript, application/javascript, text/html and the final
    -- catch-all arm all wrap str(body) keyed on the status code
    if code = 200 then
      .ok (.obj [("success", .bool true), ("result", .str body)])
    else
      .ok (.obj [("success", .bool false), ("code", .num code),
                 ("result", .str body)])

/-- `_raw` seen from response receipt: status classification, then body
normalization. -/
def raw (rtype : String) (code : Nat) (body : String) : Except CFErr JValue :=
  match call_network_classify code with
  | .error e => .error e
  | .ok _ => raw_normalize rtype code body

/-- `response_data['errors'][0][fld]` as one chained access. -/
def errField (d : JValue) (fld : String) : Except CFErr JValue :=
  match pyGetItemS d "errors" with
  | .error e => .error e
  | .ok es =>
    match pyIndex es 0 with
    | .error e => .error e
    | .ok e0 => pyGetItemS e0 fld

/-- `try: message = ...['message'] except: message = ''` (lines 457-460). -/
def tryMessage (d : JValue) : JValue :=
  match errField d "message" with
  | .ok v => v
  | .error _ => .str ""

/-- `try: location = str(...['location']) except: location = ''`. -/
def tryLocation (d : JValue) : String :=
  match errField d "location" with
  | .ok v => pyStr v
  | .error _ => ""

/-- `try: path = '>'.join(...['path']) except: path = ''`. -/
def tryPath (d : JValue) : String :=
  match errField d "path" with
  | .ok v =>
    match pyJoinGT v with
    | .ok s => s
    | .error _ => ""
  | .error _ => ""

/-- The success-field sanitization step of `_call` (lines 445-484).  In the
shape-as-own-error branch the Python code appends the dict into its own
`errors` list (a self-reference); that entry is modelled by the
pre-assignment snapshot, which this development only inspects for
non-emptiness. -/
def sanitize (d : JValue) : Except CFErr JValue :=
  match pyContains d "success" with
  | .error e => .error e
  | .ok true => .ok d
  | .ok false =>
    match pyContains d "errors" with
    | .error e => .error e
    | .ok true =>
      match pyGetItemS d "errors" with
      | .error e => .error e
      | .ok ev =>
        if ev.isNull then pySetItemS d "success" (.bool true)
        else
          match (tryMessage d).asStr with
          | some m =>
            let msg := m ++ " - " ++ tryLocation d ++ " - " ++ tryPath d
            let newErrs : JValue :=
              .arr [.obj [("code", .num 99999), ("message", .str msg)]]
            match pySetItemS d "errors" newErrs with
            | .error e => .error e
            | .ok d2 => pySetItemS d2 "success" (.bool false)
          | none => .error .typeError
    | .ok false =>
      match pyContains d "result" with
      | .error e => .error e
      | .ok true => pySetItemS d "success" (.bool true)
      | .ok false =>
        match pySetItemS d "errors" (.arr [d]) with
        | .error e => .error e
        | .ok d2 => pySetItemS d2 "success" (.bool false)

/-- `errors = response_data['errors'][0]` when a non-None errors list exists,
else the empty dict (lines 487-490). -/
def firstError (d : JValue) : Except CFErr JValue :=
  match pyContains d "errors" with
  | .error e => .error e
  | .ok true =>
    match pyGetItemS d "errors" with
    | .error e => .error e
    | .ok ev => if ev.isNull then .ok (.obj []) else pyIndex ev 0
  | .ok false => .ok (.obj [])

/-- The raise-or-unwrap step of `_call` after sanitization (lines 486-535),
parameterized on the raw-mode flag. -/
def callFinish (rawMode : Bool) (d : JValue) : Except CFErr JValue :=
  match pyGetItemS d "success" with
  | .error e => .error e
  | .ok sv =>
    match sv with
    | .bool false =>
      match firstError d with
      | .error e => .error e
      | .ok errors =>
        match pyContains errors "code" with
        | .error e => .error e
        | .ok hasCode =>
          match (if hasCode then pyGetItemS errors "code"
                 else .ok (.num 99998)) with
          | .error e => .error e
          | .ok codeV =>
            match pyContains errors "message" with
            | .error e => .error e
            | .ok hasMsg =>
              match (if hasMsg then pyGetItemS errors "message"
                     else
                       match pyContains errors "error" with
                       | .error e => .error e
                       | .ok true => pyGetItemS errors "error"
                       | .ok false => .ok (.str "")) with
              | .error e => .error e
              | .ok msgV =>
                match pyContains errors "error_chain" with
                | .error e => .error e
                | .ok true =>
                  match pyGetItemS errors "error_chain" with
                  | .error e => .error e
                  | .ok chain => .error (.apiErrorChain codeV msgV chain)
                | .ok false => .error (.apiError codeV msgV)
    | _ =>
      if rawMode then
        let resObj : List (String × JValue) :=
          match pyGetItemS d "result" with
          | .ok v => [("result", v)]
          | .error _ => [("result", d)]
        match pyContains d "result_info" with
        | .error e => .error e
        | .ok true =>
          match pyGetItemS d "result_info" with
          | .error e => .error e
          | .ok ri => .ok (.obj (jSet resObj "result_info" ri))
        | .ok false => .ok (.obj resObj)
      else
        .ok (match pyGetItemS d "result" with
             | .ok v => v
             | .error _ => d)

/-- `_call` seen from response receipt: classification, normalization,
sanitization, then raise-or-unwrap. -/
def call (rawMode : Bool) (rtype : String) (code : Nat) (body : String) :
    Except CFErr JValue :=
  match raw rtype code body with
  | .error e => .error e
  | .ok d =>
    match sanitize d with
    | .error e => .error e
    | .ok d2 => callFinish rawMode d2

/-- `_call_unwrapped` seen from response receipt: the normalized data is
returned as-is. -/
def call_unwrapped (rtype : String) (code : Nat) (body : String) :
    Except CFErr JValue :=
  raw rtype code body

/-- The configuration dict: keys to values, where a value of `none` is the
Python value `None`. -/
def Config := List (String × Option String)

def cLookup : List (String × Option String) → String → Option (Option String)
  | [], _ => none
  | (k, v) :: rest, key => if k = key then some v else cLookup rest key

/-- The `__init__` pass over the configuration (lines 952-954): every value
equal to the empty string becomes `None`. -/
def normalizeConfig (cfg : List (String × Option String)) :
    List (String × Option String) :=
  cfg.map fun kv => (kv.1, if kv.2 = some "" then none else kv.2)

/-- `config['k'] if 'k' in config else None`, as in `_v4base.__init__`. -/
def configGeneric (cfg : List (String × Option String)) (k : String) :
    Option String :=
  match cLookup cfg k with
  | some v => v
  | none => none

def lowerChar (c : Char) : Char :=
  if 'A' ≤ c ∧ c ≤ 'Z' then Char.ofNat (c.toNat + 32) else c

/-- Python `str.lower` for ASCII method names. -/
def lowerStr (s : String) : String := String.mk (s.data.map lowerChar)

/-- The per-field credential resolution of `_add_auth_headers` (lines 64-69):
the method-specific override `<field>.<method>` in the config takes
precedence over the generic value, even when the override is `None`. -/
def resolveCred (cfg : List (String × Option String)) (generic : Option String)
    (fld method : String) : Option String :=
  match cLookup cfg (fld ++ "." ++ lowerStr method) with
  | some v => v
  | none => generic

/-- Header dicts. -/
def Headers := List (String × String)

def hLookup : List (String × String) → String → Option String
  | [], _ => none
  | (k, v) :: rest, key => if k = key then some v else hLookup rest key

def hSet : List (String × String) → String → String → List (String × String)
  | [], key, v => [(key, v)]
  | (k, w) :: rest, key, v =>
    if k = key then (key, v) :: rest else (k, w) :: hSet rest key v

/-- Python `del headers[k]`. -/
def hDel : List (String × String) → String → List (String × String)
  | [], _ => []
  | (k, v) :: rest, key =>
    if k = key then hDel rest key else (k, v) :: hDel rest key

/-- `_add_headers` (lines 56-59). -/
def add_headers (ua : String) : List (String × String) :=
  hSet (hSet [] "User-Agent" ua) "Content-Type" "application/json"

/-- `_add_auth_headers` (lines 61-97): resolve each credential field with its
per-method override, run the three failure checks in source order, then emit
the headers for the selected scheme.  `Option.getD` only fires on branches
the guards have shown to be `some`. -/
def add_auth_headers (cfg : List (String × Option String))
    (api_email api_key api_token : Option String) (method : String)
    (headers : List (String × String)) :
    Except CFErr (List (String × String)) :=
  let e := resolveCred cfg api_email "email" method
  let k := resolveCred cfg api_key "key" method
  let t := resolveCred cfg api_token "token" method
  if e.isNone && k.isNone && t.isNone then
    .error (.apiError (.num 0) (.str "neither email/key or token defined"))
  else if k.isSome && t.isSome then
    .error (.apiError (.num 0)
      (.str "confused info - both key and token defined"))
  else if e.isSome && k.isNone && t.isNone then
    .error (.apiError (.num 0)
      (.str "email defined however neither key or token defined"))
  else if e.isNone && t.isSome then
    .ok (hSet headers "Authorization" ("Bearer " ++ t.getD ""))
  else if e.isNone && k.isSome then
    .ok (hSet headers "Authorization" ("Bearer " ++ k.getD ""))
  else if e.isSome && k.isSome then
    .ok (hSet (hSet headers "X-Auth-Email" (e.getD ""))
          "X-Auth-Key" (k.getD ""))
  else if e.isSome && t.isSome then
    .ok (hSet (hSet headers "X-Auth-Email" (e.getD ""))
          "X-Auth-Key" (t.getD ""))
  else .error (.internalError "coding issue!")

def truthyS : Option String → Bool
  | none => false
  | some s => if s = "" then false else true

/-- The trailing `if parts[2]: ...` block of the URL construction
(lines 190-199): third segment, optional identifier 3, fourth segment,
optional identifier 4, fifth segment, each appended only when truthy. -/
def url_tail (url0 : String) (p3 p4 p5 i3 i4 : Option String) : String :=
  if truthyS p3 then
    let u1 := url0 ++ "/" ++ p3.getD ""
    let u2 := if truthyS i3 then u1 ++ "/" ++ i3.getD "" else u1
    if truthyS p4 then
      let u3 := u2 ++ "/" ++ p4.getD ""
      let u4 := if truthyS i4 then u3 ++ "/" ++ i4.getD "" else u3
      if truthyS p5 then u4 ++ "/" ++ p5.getD "" else u4
    else u2
  else url0

/-- The URL-construction part of `_call_network` (lines 162-199).  `p1..p5`
are `parts[0..4]`, `i1..i4` are `identifiers[0..3]`.  When the first-segment
branch is forced by `data` on a GET while `parts[1]` is `None`, the Python
concatenation of `None` raises `TypeError`. -/
def call_network_url (base method : String)
    (p1 p2 p3 p4 p5 i1 i2 i3 i4 : Option String) (dataPresent : Bool) :
    Except CFErr String :=
  match p1 with
  | none => .error (.internalError "You must specify a method and endpoint")
  | some s1 =>
    if p2.isSome || (dataPresent && method == "GET") then
      match i1 with
      | none =>
        .error (.apiError (.num 0) (.str "You must specify first identifier"))
      | some v1 =>
        match p2 with
        | none => .error .typeError
        | some s2 =>
          match i2 with
          | none =>
            .ok (url_tail (base ++ "/" ++ s1 ++ "/" ++ v1 ++ "/" ++ s2)
                  p3 p4 p5 i3 i4)
          | some v2 =>
            .ok (url_tail
                  (base ++ "/" ++ s1 ++ "/" ++ v1 ++ "/" ++ s2 ++ "/" ++ v2)
                  p3 p4 p5 i3 i4)
    else
      match i1 with
      | none => .ok (url_tail (base ++ "/" ++ s1) p3 p4 p5 i3 i4)
      | some v1 => .ok (url_tail (base ++ "/" ++ s1 ++ "/" ++ v1) p3 p4 p5 i3 i4)

/-- The outbound request assembled by `_call_network` just before
`self.network(...)` is invoked: an `.error` anywhere earlier means no network
request is ever issued. -/
structure Request where
  method : String
  url : String
  headers : List (String × String)

/-- The content-type adjustments of `do_auth` (lines 125-132): a string body
switches the content type to `application/javascript`; attached files set it
to `multipart/form-data` and then immediately `del` it. -/
def content_type_adjust (dataIsString filesPresent : Bool)
    (hs : List (String × String)) : List (String × String) :=
  let hs1 :=
    if dataIsString then hSet hs "Content-Type" "application/javascript"
    else hs
  if filesPresent then
    hDel (hSet hs1 "Content-Type" "multipart/form-data") "Content-Type"
  else hs1

/-- `do_auth` up to the point the network is called (lines 119-133 plus the
request assembly of `_call_network`): default headers, authentication
headers, the content-type adjustments, then the URL. -/
def do_auth (cfg : List (String × Option String))
    (api_email api_key api_token : Option String) (ua base method : String)
    (p1 p2 p3 p4 p5 i1 i2 i3 i4 : Option String)
    (dataPresent dataIsString filesPresent : Bool) : Except CFErr Request :=
  match add_auth_headers cfg api_email api_key api_token method
      (add_headers ua) with
  | .error e => .error e
  | .ok hs0 =>
    match call_network_url base method p1 p2 p3 p4 p5 i1 i2 i3 i4
        dataPresent with
    | .error e => .error e
    | .ok url => .ok ⟨method, url, content_type_adjust dataIsString filesPresent hs0⟩

/-- `do_no_auth` up to the point the network is called (lines 112-117 plus
request assembly): only the default headers. -/
def do_no_auth (ua base method : String)
    (p1 p2 p3 p4 p5 i1 i2 i3 i4 : Option String) (dataPresent : Bool) :
    Except CFErr Request :=
  match call_network_url base method p1 p2 p3 p4 p5 i1 i2 i3 i4
      dataPresent with
  | .error e => .error e
  | .ok url => .ok ⟨method, url, add_headers ua⟩

inductive Verb where
  | vget | vpatch | vpost | vput | vdelete
deriving DecidableEq

def verbName : Verb → String
  | .vget => "get"
  | .vpatch => "patch"
  | .vpost => "post"
  | .vput => "put"
  | .vdelete => "delete"

/-- Verb dispatch of an `_add_no_auth` endpoint node (lines 611-654): only
`get` (and the call-as-get form) reaches `do_no_auth`; every other verb
raises without touching the network. -/
def no_auth_node_call (ua base : String) (v : Verb)
    (p1 p2 p3 p4 p5 i1 i2 i3 i4 : Option String) (dataPresent : Bool) :
    Except CFErr Request :=
  match v with
  | .vget => do_no_auth ua base "GET" p1 p2 p3 p4 p5 i1 i2 i3 i4 dataPresent
  | v =>
    .error (.apiError (.num 0)
      (.str (verbName v ++ "() call not available for this endpoint")))

/-- The HTTP method string each endpoint-node verb passes down to
`do_auth` / `do_no_auth`. -/
def httpMethod : Verb → String
  | .vget => "GET"
  | .vpatch => "PATCH"
  | .vpost => "POST"
  | .vput => "PUT"
  | .vdelete => "DELETE"

/-- A configuration supplying every credential field as the empty string, as
a user might via environment variables or a config file. -/
def emptyCredsConfig : List (String × Option String) :=
  [("email", some ""), ("key", some ""), ("token", some "")]

theorem jLookup_jSet_same (fs : List (String × JValue)) (k : String)
    (v : JValue) : jLookup (jSet fs k v) k = some v := by
  induction fs with
  | nil => simp [jSet, jLookup]
  | cons kv rest ih =>
    by_cases h : kv.1 = k
    · obtain ⟨k1, w⟩ := kv
      simp only at h
      simp [jSet, h, jLookup]
    · obtain ⟨k1, w⟩ := kv
      simp only at h
      simp [jSet, h, jLookup, ih]

theorem jLookup_jSet_ne (fs : List (String × JValue)) (k k' : String)
    (v : JValue) (h : k ≠ k') :
    jLookup (jSet fs k v) k' = jLookup fs k' := by
  have h' : ¬(k' = k) := fun hh => h hh.symm
  induction fs with
  | nil => simp [jSet, jLookup, h]
  | cons kv rest ih =>
    obtain ⟨k1, w⟩ := kv
    by_cases h1 : k1 = k
    · simp [jSet, h1, jLookup, h, h']
    · by_cases h2 : k1 = k'
      · simp [jSet, h1, jLookup, h2, h']
      · simp [jSet, h1, jLookup, h2, ih]

theorem hLookup_hSet_same (hs : List (String × String)) (k v : String) :
    hLookup (hSet hs k v) k = some v := by
  induction hs with
  | nil => simp [hSet, hLookup]
  | cons kv rest ih =>
    obtain ⟨k1, w⟩ := kv
    by_cases h : k1 = k
    · simp [hSet, h, hLookup]
    · simp [hSet, h, hLookup, ih]

theorem hLookup_hSet_ne (hs : List (String × String)) (k k' v : String)
    (h : k ≠ k') : hLookup (hSet hs k v) k' = hLookup hs k' := by
  have h' : ¬(k' = k) := fun hh => h hh.symm
  induction hs with
  | nil => simp [hSet, hLookup, h]
  | cons kv rest ih =>
    obtain ⟨k1, w⟩ := kv
    by_cases h1 : k1 = k
    · simp [hSet, h1, hLookup, h, h']
    · by_cases h2 : k1 = k'
      · simp [hSet, h1, hLookup, h2, h']
      · simp [hSet, h1, hLookup, h2, ih]

theorem hLookup_hDel_same (hs : List (String × String)) (k : String) :
    hLookup (hDel hs k) k = none := by
  induction hs with
  | nil => simp [hDel, hLookup]
  | cons kv rest ih =>
    obtain ⟨k1, w⟩ := kv
    by_cases h : k1 = k
    · simp [hDel, h, ih]
    · simp [hDel, h, hLookup, ih]

theorem hLookup_hDel_ne (hs : List (String × String)) (k k' : String)
    (h : k ≠ k') : hLookup (hDel hs k) k' = hLookup hs k' := by
  have h' : ¬(k' = k) := fun hh => h hh.symm
  induction hs with
  | nil => simp [hDel, hLookup]
  | cons kv rest ih =>
    obtain ⟨k1, w⟩ := kv
    by_cases h1 : k1 = k
    · have h2 : ¬(k1 = k') := by rw [h1]; exact h
      simp [hDel, h1, hLookup, h2, h, ih]
    · by_cases h2 : k1 = k'
      · simp [hDel, h1, hLookup, h2, h', ih]
      · simp [hDel, h1, hLookup, h2, h', ih]

theorem raw_normalize_ndjson_ok (code : Nat) (body : String) (vs : List JValue)
    (hp : jsonParse body = none) (hb : body ≠ "")
    (hm : (pySplitLines body).mapM jsonParse = some vs) :
    raw_normalize "application/json" code body = .ok (.arr vs) := by
  unfold raw_normalize
  rw [if_pos rfl, hp, if_neg hb, hm]

theorem raw_normalize_ndjson_err (code : Nat) (body : String)
    (hp : jsonParse body = none) (hb : body ≠ "")
    (hm : (pySplitLines body).mapM jsonParse = none) :
    raw_normalize "application/json" code body
      = .error (.apiError (.num 0)
          (.str "JSON parse failed - report to Cloudflare.")) := by
  unfold raw_normalize
  rw [if_pos rfl, hp, if_neg hb, hm]

theorem call_network_classify_ok (code : Nat) (h : code < 500) :
    call_network_classify code = .ok () := by
  unfold call_network_classify
  rw [if_neg]
  omega

/-- C2: for every response whose status code is in 500..599, the call
pipeline fails at the status-classification step with the HTTP error raised
by `raise_for_status`, for every content type and every body, in both the
default and the unwrapped flow; no canonical response is produced. -/
theorem c2_server_error_fail_fast (rawMode : Bool) (rtype : String)
    (code : Nat) (body : String) (h1 : 500 ≤ code) (h2 : code ≤ 599) :
    call_network_classify code = .error (.httpError code) ∧
    call rawMode rtype code body = .error (.httpError code) ∧
    call_unwrapped rtype code body = .error (.httpError code) := by
  have hc : call_network_classify code = .error (.httpError code) := by
    unfold call_network_classify
    rw [if_pos ⟨h1, h2⟩]
  refine ⟨hc, ?_, ?_⟩
  · unfold call raw
    rw [hc]
  · unfold call_unwrapped raw
    rw [hc]

/-- C2 witness: a 503 with a JSON body fails with the HTTP error before
normalization. -/
theorem c2_witness :
    call false "application/json" 503 "\x7b\"ok\": true\x7d"
      = .error (.httpError 503) :=
  (c2_server_error_fail_fast false "application/json" 503
    "\x7b\"ok\": true\x7d" (by decide) (by decide)).2.1

/-- C6: an empty `application/json` body normalizes to success together with
a null result at status 200, to the success-false/code-404/null-result dict
at status 404, and in the default (non-raw) call flow the 404 case raises
`CloudFlareAPIError` with code 99998 and an empty message. -/
theorem c6_empty_body :
    raw_normalize "application/json" 200 ""
      = .ok (.obj [("success", .bool true), ("result", .null)]) ∧
    raw_normalize "application/json" 404 ""
      = .ok (.obj [("success", .bool false), ("code", .num 404),
                   ("result", .null)]) ∧
    call false "application/json" 404 ""
      = .error (.apiError (.num 99998) (.str "")) :=
  ⟨rfl, rfl, rfl⟩

/-- C7 counterexample: at status 503 the body `\x7b"errors": null\x7d` is
never sanitized at all — the call raises the transport-level HTTP error, so
the claim's "for every declared status code" fails for 5xx codes. -/
theorem c7_counterexample :
    call false "application/json" 503 "\x7b\"errors\": null\x7d"
      = .error (.httpError 503) := rfl

/-- C7 amended: for every status code below 500 (the codes that reach the
normalizer at all), a body consisting of the JSON object
`\x7b"errors": null\x7d` is sanitized to success=true and the default call
flow completes successfully, returning the dict itself as the result. -/
theorem c7_errors_null_success (code : Nat) (h : code < 500) :
    sanitize (.obj [("errors", .null)])
      = .ok (.obj [("errors", .null), ("success", .bool true)]) ∧
    call false "application/json" code "\x7b\"errors\": null\x7d"
      = .ok (.obj [("errors", .null), ("success", .bool true)]) := by
  constructor
  · rfl
  · have hcl := call_network_classify_ok code h
    unfold call raw
    rw [hcl]
    rfl

/-- C7 witness: status 404 with the errors-null body completes successfully. -/
theorem c7_witness :
    sanitize (.obj [("errors", .null)])
      = .ok (.obj [("errors", .null), ("success", .bool true)]) ∧
    call false "application/json" 404 "\x7b\"errors\": null\x7d"
      = .ok (.obj [("errors", .null), ("success", .bool true)]) :=
  c7_errors_null_success 404 (by decide)

/-- C4 counterexample: with the 4th path segment (`parts[3]`) present and
identifier 3 (`identifiers[2]`) absent, the URL builder does not raise a
missing-identifier error: it silently appends the segment and the request is
assembled, contradicting the claim that identifier 3 is mandatory whenever
the 4th segment is present. -/
theorem c4_counterexample :
    call_network_url "B" "GET" (some "a") none (some "c") (some "d") none
        none none none none false = .ok "B/a/c/d" ∧
    do_no_auth "UA" "B" "GET" (some "a") none (some "c") (some "d") none
        none none none none false
      = .ok ⟨"GET", "B/a/c/d", add_headers "UA"⟩ :=
  ⟨rfl, rfl⟩

/-- C4 amended: the URL interleaves literal segments with identifiers
strictly left-to-right, omitting the whole trailing block when the 3rd
literal segment is absent; identifier 1 is mandatory whenever the 2nd
segment is present (missing-identifier error before any network I/O); but
the 4th segment being present does not make identifier 3 mandatory — the
segment is appended and the absent identifier is simply skipped. -/
theorem c4_url_interleaving :
    (∀ base method s1 p2 p3 p4 p5 i2 i3 i4 dp,
       call_network_url base method (some s1) (some p2) p3 p4 p5 none i2 i3
           i4 dp
         = .error (.apiError (.num 0)
             (.str "You must specify first identifier"))) ∧
    (∀ base method s1 s2 s3 s4 s5 v1 v2 v3 v4,
       s3 ≠ "" → s4 ≠ "" → s5 ≠ "" → v3 ≠ "" → v4 ≠ "" →
       call_network_url base method (some s1) (some s2) (some s3) (some s4)
           (some s5) (some v1) (some v2) (some v3) (some v4) false
         = .ok (base ++ "/" ++ s1 ++ "/" ++ v1 ++ "/" ++ s2 ++ "/" ++ v2
                ++ "/" ++ s3 ++ "/" ++ v3 ++ "/" ++ s4 ++ "/" ++ v4
                ++ "/" ++ s5)) ∧
    (∀ base method s1 p4 p5 i3 i4,
       call_network_url base method (some s1) none none p4 p5 none none i3
           i4 false
         = .ok (base ++ "/" ++ s1)) ∧
    (∀ base method s1 s3 s4,
       s3 ≠ "" → s4 ≠ "" →
       call_network_url base method (some s1) none (some s3) (some s4) none
           none none none none false
         = .ok (base ++ "/" ++ s1 ++ "/" ++ s3 ++ "/" ++ s4)) := by
  refine ⟨?_, ?_, ?_, ?_⟩
  · intro base method s1 p2 p3 p4 p5 i2 i3 i4 dp
    simp [call_network_url]
  · intro base method s1 s2 s3 s4 s5 v1 v2 v3 v4 h3 h4 h5 hv3 hv4
    simp [call_network_url, url_tail, truthyS, h3, h4, h5, hv3, hv4]
  · intro base method s1 p4 p5 i3 i4
    simp [call_network_url, url_tail, truthyS]
  · intro base method s1 s3 s4 h3 h4
    simp [call_network_url, url_tail, truthyS, h3, h4]

/-- C4 witness: the fully-supplied interleaving and the appended-without-
identifier case at concrete inputs. -/
theorem c4_witness :
    call_network_url "B" "GET" (some "zones") (some "dns_records")
        (some "export") (some "x") (some "y") (some "Z") (some "R")
        (some "E") (some "X") false
      = .ok "B/zones/Z/dns_records/R/export/E/x/X/y" ∧
    call_network_url "B" "GET" (some "a") none (some "c") (some "d") none
        none none none none false
      = .ok "B/a/c/d" :=
  ⟨c4_url_interleaving.2.1 "B" "GET" "zones" "dns_records" "export" "x" "y"
      "Z" "R" "E" "X" (by decide) (by decide) (by decide) (by decide)
      (by decide),
   c4_url_interleaving.2.2.2 "B" "GET" "a" "c" "d" (by decide) (by decide)⟩

/-- C5 counterexample: the two-line NDJSON body normalizes to the bare list
(no envelope), which the default call flow then mishandles with a Python
`TypeError` instead of returning it as the result; and a body whose first
line parses but whose second does not already fails with the JSON-parse
error, so the call fails even though not every line fails to parse. -/
theorem c5_counterexample :
    raw_normalize "application/json" 200 "\x7b\"a\":1\x7d\n\x7b\"a\":2\x7d"
      = .ok (.arr [.obj [("a", .num 1)], .obj [("a", .num 2)]]) ∧
    call false "application/json" 200 "\x7b\"a\":1\x7d\n\x7b\"a\":2\x7d"
      = .error .typeError ∧
    jsonParse "\x7b\"a\":1\x7d" = some (.obj [("a", .num 1)]) ∧
    raw_normalize "application/json" 200 "\x7b\"a\":1\x7d\nnotjson"
      = .error (.apiError (.num 0)
          (.str "JSON parse failed - report to Cloudflare.")) ∧
    pySplitLines "\x7b\"a\":1\x7d\nnotjson"
      = ["\x7b\"a\":1\x7d", "notjson"] :=
  ⟨rfl, rfl, rfl, rfl, rfl⟩

/-- C5 amended: for an `application/json` response whose non-empty body is
not a single JSON document, normalization parses the body line by line; when
every line parses, the bare sequence is the normalizer's output and becomes
the result of the unwrapped call flow (the default flow fails on the bare
list with a `TypeError`); when any line fails to parse, the call fails with
the JSON-parse error — not only when every line fails. -/
theorem c5_ndjson :
    (∀ code body vs, jsonParse body = none → body ≠ "" →
        (pySplitLines body).mapM jsonParse = some vs →
        raw_normalize "application/json" code body = .ok (.arr vs)) ∧
    (∀ code body vs, code < 500 → jsonParse body = none → body ≠ "" →
        (pySplitLines body).mapM jsonParse = some vs →
        call_unwrapped "application/json" code body = .ok (.arr vs)) ∧
    (∀ code body, jsonParse body = none → body ≠ "" →
        (pySplitLines body).mapM jsonParse = none →
        raw_normalize "application/json" code body
          = .error (.apiError (.num 0)
              (.str "JSON parse failed - report to Cloudflare."))) := by
  refine ⟨?_, ?_, ?_⟩
  · intro code body vs hp hb hm
    exact raw_normalize_ndjson_ok code body vs hp hb hm
  · intro code body vs hc hp hb hm
    unfold call_unwrapped raw
    rw [call_network_classify_ok code hc]
    exact raw_normalize_ndjson_ok code body vs hp hb hm
  · intro code body hp hb hm
    exact raw_normalize_ndjson_err code body hp hb hm

/-- C5 witness: the two-line NDJSON body through the unwrapped flow. -/
theorem c5_witness :
    raw_normalize "application/json" 200 "\x7b\"a\":1\x7d\n\x7b\"a\":2\x7d"
      = .ok (.arr [.obj [("a", .num 1)], .obj [("a", .num 2)]]) ∧
    call_unwrapped "application/json" 200 "\x7b\"a\":1\x7d\n\x7b\"a\":2\x7d"
      = .ok (.arr [.obj [("a", .num 1)], .obj [("a", .num 2)]]) :=
  ⟨c5_ndjson.1 200 "\x7b\"a\":1\x7d\n\x7b\"a\":2\x7d" _ rfl (by decide) rfl,
   c5_ndjson.2.1 200 "\x7b\"a\":1\x7d\n\x7b\"a\":2\x7d" _ (by decide) rfl
     (by decide) rfl⟩

/-- C8 counterexample: the disallowed-verb message of a no-auth endpoint
node names the verb but not the endpoint path — for the node rooted at
`zones`, the message does not contain `zones`. -/
theorem c8_counterexample :
    no_auth_node_call "UA" "B" .vpost (some "zones") none none none none
        none none none none false
      = .error (.apiError (.num 0)
          (.str "post() call not available for this endpoint")) ∧
    strHasSub "post() call not available for this endpoint" "zones"
      = false :=
  ⟨rfl, rfl⟩

/-- C8 amended: invoking any verb other than `get` on a no-auth endpoint
node fails with `CloudFlareAPIError` whose message names the verb (but not
the endpoint path), and no outbound request is assembled. -/
theorem c8_unsupported_verb (ua base : String) (v : Verb)
    (p1 p2 p3 p4 p5 i1 i2 i3 i4 : Option String) (dp : Bool)
    (hv : v ≠ Verb.vget) :
    no_auth_node_call ua base v p1 p2 p3 p4 p5 i1 i2 i3 i4 dp
      = .error (.apiError (.num 0)
          (.str (verbName v ++ "() call not available for this endpoint"))) ∧
    strHasSub (verbName v ++ "() call not available for this endpoint")
        (verbName v)
      = true := by
  cases v with
  | vget => exact absurd rfl hv
  | vpatch => exact ⟨rfl, rfl⟩
  | vpost => exact ⟨rfl, rfl⟩
  | vput => exact ⟨rfl, rfl⟩
  | vdelete => exact ⟨rfl, rfl⟩

/-- C8 witness: `put` on a no-auth node raises without a request. -/
theorem c8_witness :
    no_auth_node_call "UA" "B" .vput (some "zones") none none none none
        none none none none false
      = .error (.apiError (.num 0)
          (.str "put() call not available for this endpoint")) ∧
    strHasSub "put() call not available for this endpoint" "put" = true :=
  c8_unsupported_verb "UA" "B" .vput (some "zones") none none none none
    none none none none false (by decide)

/-- C10: the construction-time pass replaces every empty-string
configuration value by `None`, so no normalized configuration retains an
empty-string value; consequently a client whose email, key and token are all
supplied as empty strings fails every authenticated call — for each of the
five verbs' methods — with the no-credential error, before any outbound
request is assembled. -/
theorem c10_empty_string_credentials :
    (∀ cfg : List (String × Option String),
       (normalizeConfig cfg).all (fun kv => !(kv.2 == some "")) = true) ∧
    (∀ (v : Verb) (hs : List (String × String)),
       add_auth_headers (normalizeConfig emptyCredsConfig)
         (configGeneric (normalizeConfig emptyCredsConfig) "email")
         (configGeneric (normalizeConfig emptyCredsConfig) "key")
         (configGeneric (normalizeConfig emptyCredsConfig) "token")
         (httpMethod v) hs
       = .error (.apiError (.num 0)
           (.str "neither email/key or token defined"))) ∧
    (∀ (v : Verb) (ua base : String)
       (p1 p2 p3 p4 p5 i1 i2 i3 i4 : Option String) (dp ds fp : Bool),
       do_auth (normalizeConfig emptyCredsConfig)
         (configGeneric (normalizeConfig emptyCredsConfig) "email")
         (configGeneric (normalizeConfig emptyCredsConfig) "key")
         (configGeneric (normalizeConfig emptyCredsConfig) "token")
         ua base (httpMethod v) p1 p2 p3 p4 p5 i1 i2 i3 i4 dp ds fp
       = .error (.apiError (.num 0)
           (.str "neither email/key or token defined"))) := by
  refine ⟨?_, ?_, ?_⟩
  · intro cfg
    rw [List.all_eq_true]
    intro kv hkv
    unfold normalizeConfig at hkv
    rw [List.mem_map] at hkv
    obtain ⟨kv0, _, rfl⟩ := hkv
    by_cases h : kv0.2 = some ""
    · simp [h]
    · simp [h, beq_eq_false_iff_ne]
  · intro v hs
    cases v <;> rfl
  · intro v ua base p1 p2 p3 p4 p5 i1 i2 i3 i4 dp ds fp
    cases v <;> rfl

theorem content_type_adjust_other (ds fp : Bool)
    (hs : List (String × String)) (k : String) (hk : k ≠ "Content-Type") :
    hLookup (content_type_adjust ds fp hs) k = hLookup hs k := by
  have hk' : ("Content-Type" : String) ≠ k := Ne.symm hk
  cases ds <;> cases fp <;>
    simp [content_type_adjust, hLookup_hDel_ne _ _ _ (Ne.symm hk),
      hLookup_hSet_ne _ _ _ _ hk']

theorem content_type_adjust_ct (ds fp : Bool)
    (hs : List (String × String)) :
    hLookup (content_type_adjust ds fp hs) "Content-Type"
      = (if fp then none
         else if ds then some "application/javascript"
         else hLookup hs "Content-Type") := by
  cases ds <;> cases fp <;>
    simp [content_type_adjust, hLookup_hDel_same, hLookup_hSet_same]

theorem add_auth_headers_keeps (cfg : List (String × Option String))
    (ae ak atok : Option String) (m : String)
    (hs h' : List (String × String)) (k : String)
    (hok : add_auth_headers cfg ae ak atok m hs = .ok h')
    (h1 : k ≠ "Authorization") (h2 : k ≠ "X-Auth-Email")
    (h3 : k ≠ "X-Auth-Key") :
    hLookup h' k = hLookup hs k := by
  simp only [add_auth_headers] at hok
  split at hok
  · exact absurd hok (by simp)
  · split at hok
    · exact absurd hok (by simp)
    · split at hok
      · exact absurd hok (by simp)
      · split at hok
        · simp only [Except.ok.injEq] at hok
          subst hok
          exact hLookup_hSet_ne hs "Authorization" k _ (Ne.symm h1)
        · split at hok
          · simp only [Except.ok.injEq] at hok
            subst hok
            exact hLookup_hSet_ne hs "Authorization" k _ (Ne.symm h1)
          · split at hok
            · simp only [Except.ok.injEq] at hok
              subst hok
              rw [hLookup_hSet_ne _ _ _ _ (Ne.symm h3)]
              exact hLookup_hSet_ne hs "X-Auth-Email" k _ (Ne.symm h2)
            · split at hok
              · simp only [Except.ok.injEq] at hok
                subst hok
                rw [hLookup_hSet_ne _ _ _ _ (Ne.symm h3)]
                exact hLookup_hSet_ne hs "X-Auth-Email" k _ (Ne.symm h2)
              · exact absurd hok (by simp)

theorem add_headers_ua (ua : String) :
    hLookup (add_headers ua) "User-Agent" = some ua := by
  unfold add_headers
  rw [hLookup_hSet_ne _ _ _ _ (by decide)]
  exact hLookup_hSet_same _ _ _

theorem add_headers_ct (ua : String) :
    hLookup (add_headers ua) "Content-Type" = some "application/json" :=
  hLookup_hSet_same _ _ _

/-- C9 counterexample: an authenticated request with files attached carries
no content-type header at all — the code sets `multipart/form-data` and then
deletes the header — contradicting the claim that every outbound request
carries a content-type header (multipart when files are attached). -/
theorem c9_counterexample :
    do_auth [] none none (some "T") "UA" "B" "GET" (some "zones") none none
        none none none none none none false false true
      = .ok ⟨"GET", "B/zones",
             [("User-Agent", "UA"), ("Authorization", "Bearer T")]⟩ ∧
    hLookup [("User-Agent", "UA"), ("Authorization", "Bearer T")]
        "Content-Type" = none :=
  ⟨rfl, rfl⟩

/-- C9 amended: every request built by `do_no_auth` carries `User-Agent` and
`Content-Type: application/json`; every request built by `do_auth` carries
`User-Agent`, and its content type is `application/json` by default,
`application/javascript` when the body is a string, and absent entirely
(deleted, not multipart) when files are attached. -/
theorem c9_headers :
    (∀ ua, hLookup (add_headers ua) "User-Agent" = some ua ∧
       hLookup (add_headers ua) "Content-Type" = some "application/json") ∧
    (∀ (cfg : List (String × Option String)) (ae ak atok : Option String)
       (ua base method : String) (p1 p2 p3 p4 p5 i1 i2 i3 i4 : Option String)
       (dp ds fp : Bool) (r : Request),
       do_auth cfg ae ak atok ua base method p1 p2 p3 p4 p5 i1 i2 i3 i4 dp
           ds fp = .ok r →
       hLookup r.headers "User-Agent" = some ua ∧
       (fp = true → hLookup r.headers "Content-Type" = none) ∧
       (fp = false → ds = true →
          hLookup r.headers "Content-Type" = some "application/javascript") ∧
       (fp = false → ds = false →
          hLookup r.headers "Content-Type" = some "application/json")) := by
  constructor
  · intro ua
    exact ⟨add_headers_ua ua, add_headers_ct ua⟩
  · intro cfg ae ak atok ua base method p1 p2 p3 p4 p5 i1 i2 i3 i4 dp ds fp
      r hok
    unfold do_auth at hok
    cases hadd : add_auth_headers cfg ae ak atok method (add_headers ua) with
    | error e =>
      rw [hadd] at hok
      exact absurd hok (by simp)
    | ok hs0 =>
      rw [hadd] at hok
      cases hurl : call_network_url base method p1 p2 p3 p4 p5 i1 i2 i3 i4
          dp with
      | error e =>
        rw [hurl] at hok
        exact absurd hok (by simp)
      | ok url =>
        rw [hurl] at hok
        simp only [Except.ok.injEq] at hok
        subst hok
        have hua : hLookup (content_type_adjust ds fp hs0) "User-Agent"
            = some ua := by
          rw [content_type_adjust_other ds fp hs0 "User-Agent" (by decide)]
          rw [add_auth_headers_keeps cfg ae ak atok method (add_headers ua)
            hs0 "User-Agent" hadd (by decide) (by decide) (by decide)]
          exact add_headers_ua ua
        refine ⟨hua, ?_, ?_, ?_⟩
        · intro hfp
          subst hfp
          have hct := content_type_adjust_ct ds true hs0
          simp at hct
          exact hct
        · intro hfp hds
          subst hfp
          subst hds
          have hct := content_type_adjust_ct true false hs0
          simp at hct
          exact hct
        · intro hfp hds
          subst hfp
          subst hds
          have hct := content_type_adjust_ct false false hs0
          simp at hct
          show hLookup (content_type_adjust false false hs0) "Content-Type"
            = some "application/json"
          rw [hct]
          rw [add_auth_headers_keeps cfg ae ak atok method (add_headers ua)
            hs0 "Content-Type" hadd (by decide) (by decide) (by decide)]
          exact add_headers_ct ua

/-- C9 witness: a token-authenticated GET with files attached carries
`User-Agent` but no content-type header. -/
theorem c9_witness :
    hLookup (Request.headers ⟨"GET", "B/zones",
        [("User-Agent", "UA"), ("Authorization", "Bearer T")]⟩)
        "User-Agent" = some "UA" ∧
    hLookup (Request.headers ⟨"GET", "B/zones",
        [("User-Agent", "UA"), ("Authorization", "Bearer T")]⟩)
        "Content-Type" = none := by
  have h := c9_headers.2 [] none none (some "T") "UA" "B" "GET"
    (some "zones") none none none none none none none none false false true
    ⟨"GET", "B/zones", [("User-Agent", "UA"), ("Authorization", "Bearer T")]⟩
    rfl
  exact ⟨h.1, h.2.1 rfl⟩

/-- C3: authentication resolution, with each field's per-method override
taking precedence over the generic value, follows the source order — no
credential at all fails with the no-credential error; both key and token
fails with the confused-credential error; email alone fails with the
incomplete-credential error; token-only and key-only yield a Bearer
`Authorization` header; email+key and email+token yield the
`X-Auth-Email`/`X-Auth-Key` pair (the token as the key value in the latter
case); and every failing configuration makes `do_auth` fail before any
outbound request is assembled. -/
theorem c3_auth_resolution :
    (∀ (cfg : List (String × Option String)) (ae ak atok : Option String)
       (m : String) (hs : List (String × String)),
       resolveCred cfg ae "email" m = none →
       resolveCred cfg ak "key" m = none →
       resolveCred cfg atok "token" m = none →
       add_auth_headers cfg ae ak atok m hs
         = .error (.apiError (.num 0)
             (.str "neither email/key or token defined"))) ∧
    (∀ (cfg : List (String × Option String)) (ae ak atok : Option String)
       (m : String) (hs : List (String × String)) (kv tv : String),
       resolveCred cfg ak "key" m = some kv →
       resolveCred cfg atok "token" m = some tv →
       add_auth_headers cfg ae ak atok m hs
         = .error (.apiError (.num 0)
             (.str "confused info - both key and token defined"))) ∧
    (∀ (cfg : List (String × Option String)) (ae ak atok : Option String)
       (m : String) (hs : List (String × String)) (ev : String),
       resolveCred cfg ae "email" m = some ev →
       resolveCred cfg ak "key" m = none →
       resolveCred cfg atok "token" m = none →
       add_auth_headers cfg ae ak atok m hs
         = .error (.apiError (.num 0)
             (.str "email defined however neither key or token defined"))) ∧
    (∀ (cfg : List (String × Option String)) (ae ak atok : Option String)
       (m : String) (hs : List (String × String)) (tv : String),
       resolveCred cfg ae "email" m = none →
       resolveCred cfg ak "key" m = none →
       resolveCred cfg atok "token" m = some tv →
       add_auth_headers cfg ae ak atok m hs
         = .ok (hSet hs "Authorization" ("Bearer " ++ tv))) ∧
    (∀ (cfg : List (String × Option String)) (ae ak atok : Option String)
       (m : String) (hs : List (String × String)) (kv : String),
       resolveCred cfg ae "email" m = none →
       resolveCred cfg ak "key" m = some kv →
       resolveCred cfg atok "token" m = none →
       add_auth_headers cfg ae ak atok m hs
         = .ok (hSet hs "Authorization" ("Bearer " ++ kv))) ∧
    (∀ (cfg : List (String × Option String)) (ae ak atok : Option String)
       (m : String) (hs : List (String × String)) (ev kv : String),
       resolveCred cfg ae "email" m = some ev →
       resolveCred cfg ak "key" m = some kv →
       resolveCred cfg atok "token" m = none →
       add_auth_headers cfg ae ak atok m hs
         = .ok (hSet (hSet hs "X-Auth-Email" ev) "X-Auth-Key" kv)) ∧
    (∀ (cfg : List (String × Option String)) (ae ak atok : Option String)
       (m : String) (hs : List (String × String)) (ev tv : String),
       resolveCred cfg ae "email" m = some ev →
       resolveCred cfg ak "key" m = none →
       resolveCred cfg atok "token" m = some tv →
       add_auth_headers cfg ae ak atok m hs
         = .ok (hSet (hSet hs "X-Auth-Email" ev) "X-Auth-Key" tv)) ∧
    (∀ (cfg : List (String × Option String)) (g : Option String)
       (fld m : String) (v : Option String),
       cLookup cfg (fld ++ "." ++ lowerStr m) = some v →
       resolveCred cfg g fld m = v) ∧
    (∀ (cfg : List (String × Option String)) (ae ak atok : Option String)
       (ua base m : String) (p1 p2 p3 p4 p5 i1 i2 i3 i4 : Option String)
       (dp ds fp : Bool) (err : CFErr),
       add_auth_headers cfg ae ak atok m (add_headers ua) = .error err →
       do_auth cfg ae ak atok ua base m p1 p2 p3 p4 p5 i1 i2 i3 i4 dp ds fp
         = .error err) := by
  refine ⟨?_, ?_, ?_, ?_, ?_, ?_, ?_, ?_, ?_⟩
  · intro cfg ae ak atok m hs h1 h2 h3
    simp [add_auth_headers, h1, h2, h3]
  · intro cfg ae ak atok m hs kv tv h2 h3
    simp [add_auth_headers, h2, h3]
  · intro cfg ae ak atok m hs ev h1 h2 h3
    simp [add_auth_headers, h1, h2, h3]
  · intro cfg ae ak atok m hs tv h1 h2 h3
    simp [add_auth_headers, h1, h2, h3]
  · intro cfg ae ak atok m hs kv h1 h2 h3
    simp [add_auth_headers, h1, h2, h3]
  · intro cfg ae ak atok m hs ev kv h1 h2 h3
    simp [add_auth_headers, h1, h2, h3]
  · intro cfg ae ak atok m hs ev tv h1 h2 h3
    simp [add_auth_headers, h1, h2, h3]
  · intro cfg g fld m v h
    unfold resolveCred
    rw [h]
  · intro cfg ae ak atok ua base m p1 p2 p3 p4 p5 i1 i2 i3 i4 dp ds fp err h
    unfold do_auth
    rw [h]

/-- C3 witness: a PATCH-specific token override wins over the generic token
and yields its Bearer header; key+token together is the confused-credential
error, and the same configuration through `do_auth` produces no request. -/
theorem c3_witness :
    add_auth_headers [("token.patch", some "T2")] none none (some "T1")
        "PATCH" []
      = .ok [("Authorization", "Bearer T2")] ∧
    add_auth_headers [] none (some "K") (some "T") "GET" []
      = .error (.apiError (.num 0)
          (.str "confused info - both key and token defined")) ∧
    do_auth [] none (some "K") (some "T") "UA" "B" "GET" (some "zones") none
        none none none none none none none false false false
      = .error (.apiError (.num 0)
          (.str "confused info - both key and token defined")) := by
  refine ⟨?_, ?_, ?_⟩
  · exact c3_auth_resolution.2.2.2.1 [("token.patch", some "T2")] none none
      (some "T1") "PATCH" [] "T2" rfl rfl rfl
  · exact c3_auth_resolution.2.1 [] none (some "K") (some "T") "GET" [] "K"
      "T" rfl rfl
  · exact c3_auth_resolution.2.2.2.2.2.2.2.2 [] none (some "K") (some "T")
      "UA" "B" "GET" (some "zones") none none none none none none none none
      false false false _ rfl

/-- C1 counterexample: an empty `application/json` body at status 404
normalizes to success=false with no errors key at all, and sanitization
leaves it that way — the canonical response has success=false together with
no errors list, contradicting the claimed invariant. -/
theorem c1_counterexample :
    raw_normalize "application/json" 404 ""
      = .ok (.obj [("success", .bool false), ("code", .num 404),
                   ("result", .null)]) ∧
    sanitize (.obj [("success", .bool false), ("code", .num 404),
                    ("result", .null)])
      = .ok (.obj [("success", .bool false), ("code", .num 404),
                   ("result", .null)]) ∧
    pyContains (.obj [("success", .bool false), ("code", .num 404),
                      ("result", .null)]) "errors"
      = .ok false :=
  ⟨rfl, rfl, rfl⟩

/-- C1 amended: whenever sanitization itself synthesizes success=false — the
upstream body lacked a success field and either carried a non-null errors
value or lacked errors and result alike — the sanitized response carries a
non-empty errors list; but a response whose success=false came from
normalization (for example the empty JSON body at a non-200 status) keeps no
errors list, and the raising path falls back to code 99998. -/
theorem c1_success_false_errors_nonempty (d d' : JValue)
    (hns : pyContains d "success" = .ok false)
    (hsan : sanitize d = .ok d')
    (hsf : pyGetItemS d' "success" = .ok (.bool false)) :
    ∃ e es, pyGetItemS d' "errors" = .ok (.arr (e :: es)) := by
  cases d with
  | null => exact absurd hns (by simp [pyContains])
  | bool b => exact absurd hns (by simp [pyContains])
  | num n => exact absurd hns (by simp [pyContains])
  | str s =>
    simp only [pyContains, Except.ok.injEq] at hns
    cases he : strHasSub s "errors" with
    | true =>
      simp [sanitize, pyContains, hns, he, pyGetItemS] at hsan
    | false =>
      cases hr : strHasSub s "result" with
      | true =>
        simp [sanitize, pyContains, hns, he, hr, pySetItemS] at hsan
      | false =>
        simp [sanitize, pyContains, hns, he, hr, pySetItemS] at hsan
  | arr xs =>
    simp only [pyContains, Except.ok.injEq] at hns
    cases he : listHasStr xs "errors" with
    | true =>
      simp [sanitize, pyContains, hns, he, pyGetItemS] at hsan
    | false =>
      cases hr : listHasStr xs "result" with
      | true =>
        simp [sanitize, pyContains, hns, he, hr, pySetItemS] at hsan
      | false =>
        simp [sanitize, pyContains, hns, he, hr, pySetItemS] at hsan
  | obj fs =>
    simp only [pyContains, Except.ok.injEq] at hns
    have hsucc : jLookup fs "success" = none := by
      cases ho : jLookup fs "success" with
      | none => rfl
      | some v => rw [ho] at hns; simp at hns
    unfold sanitize at hsan
    simp only [pyContains, pyGetItemS, pySetItemS, hsucc,
      Option.isSome_none] at hsan
    cases hel : jLookup fs "errors" with
    | none =>
      rw [hel] at hsan
      simp only [Option.isSome_none] at hsan
      cases hrl : jLookup fs "result" with
      | some rv =>
        rw [hrl] at hsan
        simp only [Option.isSome_some, Except.ok.injEq] at hsan
        subst hsan
        simp [pyGetItemS, jLookup_jSet_same] at hsf
      | none =>
        rw [hrl] at hsan
        simp only [Option.isSome_none, Except.ok.injEq] at hsan
        subst hsan
        have h1 : jLookup (jSet (jSet fs "errors" (.arr [.obj fs]))
            "success" (.bool false)) "errors" = some (.arr [.obj fs]) := by
          rw [jLookup_jSet_ne _ _ _ _ (by decide), jLookup_jSet_same]
        exact ⟨.obj fs, [], by simp [pyGetItemS, h1]⟩
    | some ev =>
      rw [hel] at hsan
      simp only [Option.isSome_some] at hsan
      cases hev : ev.isNull with
      | true =>
        simp only [hev, if_true, Except.ok.injEq] at hsan
        subst hsan
        simp [pyGetItemS, jLookup_jSet_same] at hsf
      | false =>
        simp only [hev, Bool.false_eq_true, if_false] at hsan
        cases hm : (tryMessage (.obj fs)).asStr with
        | none =>
          rw [hm] at hsan
          exact absurd hsan (by simp)
        | some m =>
          rw [hm] at hsan
          simp only [Except.ok.injEq] at hsan
          subst hsan
          have h1 : jLookup (jSet (jSet fs "errors"
              (.arr [.obj [("code", .num 99999),
                ("message", .str (m ++ " - " ++ tryLocation (.obj fs)
                  ++ " - " ++ tryPath (.obj fs)))]]))
              "success" (.bool false)) "errors"
              = some (.arr [.obj [("code", .num 99999),
                  ("message", .str (m ++ " - " ++ tryLocation (.obj fs)
                    ++ " - " ++ tryPath (.obj fs)))]]) := by
            rw [jLookup_jSet_ne _ _ _ _ (by decide), jLookup_jSet_same]
          exact ⟨.obj [("code", .num 99999),
            ("message", .str (m ++ " - " ++ tryLocation (.obj fs)
              ++ " - " ++ tryPath (.obj fs)))], [],
            by simp [pyGetItemS, h1]⟩

/-- C1 witness: a body carrying a non-null `errors` value and no `success`
field is sanitized to success=false with the synthesized one-element errors
list. -/
theorem c1_witness :
    ∃ e es,
      pyGetItemS (.obj [("errors",
          .arr [.obj [("code", .num 99999),
            ("message", .str "m -  - ")]]), ("success", .bool false)])
        "errors" = .ok (.arr (e :: es)) :=
  c1_success_false_errors_nonempty
    (.obj [("errors", .arr [.obj [("message", .str "m")]])])
    (.obj [("errors", .arr [.obj [("code", .num 99999),
      ("message", .str "m -  - ")]]), ("success", .bool false)])
    rfl rfl rfl

end CF
